import Mathlib

/-!
Shallow embedding of `DSA/simdist.py` (Procrustes analysis over vector fields)
and proofs about its specification.

Modelling conventions:
* Python floats are modelled as real numbers `ℝ` (exact arithmetic).
* A numpy array / torch tensor argument is a `PyArr`: a tag telling which of
  the two runtime types it is, an explicit 2-D shape, and an entry function.
* Exceptions are modelled with `Except PyErr`.  Python `assert` failures are
  `AssertionError`s; the model distinguishes the assert site (shape assert
  vs the `C_star is not None` assert) since the spec names them
  ShapeMismatch and UninitializedState respectively.
* `torch.linalg.solve(A, B)` returns the solution `Y` of the linear system
  `A · Y = B`, i.e. `A⁻¹ * B` for invertible `A`.
* `isinstance(x, np.array)` in the source raises `TypeError` for every `x`,
  because `np.array` is the numpy array-constructor function, not a type,
  and the builtin `isinstance` requires a type as its second argument.
  Likewise `torch.from_numpy(x)` raises `TypeError` whenever `x` is not a
  numpy ndarray (in particular when it is already a torch tensor).
-/

namespace SimDist

open Matrix

/-- Errors observable from the embedded methods.  `shapeAssert` is the
`AssertionError` of a failing shape assert (spec: ShapeMismatch),
`uninitAssert` the `AssertionError` of `assert self.C_star is not None`
(spec: UninitializedState), `typeError` a Python `TypeError`. -/
inductive PyErr
  | shapeAssert
  | uninitAssert
  | typeError

/-- Runtime type tag of a data-matrix argument: numpy ndarray or torch tensor. -/
inductive NdKind
  | ndarray
  | tensor

/-- A 2-D data-matrix argument as passed to `fit` / `score`: its runtime type
tag, its shape, and its entries (junk outside the shape). -/
structure PyArr where
  kind : NdKind
  rows : ℕ
  cols : ℕ
  entry : ℕ → ℕ → ℝ

/-- The `.shape` attribute of a 2-D array. -/
def PyArr.shape (A : PyArr) : ℕ × ℕ := (A.rows, A.cols)

/-- Reading the entries of an `n × n`-shaped argument as a square matrix. -/
def PyArr.toMat (A : PyArr) (n : ℕ) : Matrix (Fin n) (Fin n) ℝ :=
  Matrix.of fun i j => A.entry i.val j.val

/-- Source line 31, `Skew.forward`: `X - X.transpose(-1, -2)`. -/
def Skew.forward {n : ℕ} (X : Matrix (Fin n) (Fin n) ℝ) : Matrix (Fin n) (Fin n) ℝ :=
  X - Xᵀ

/-- `torch.linalg.solve(A, B)`: the solution `Y` of `A · Y = B`,
which is `A⁻¹ * B` when `A` is invertible (`Matrix.inv` is `0` otherwise). -/
noncomputable def linalgSolve {n : ℕ} (A B : Matrix (Fin n) (Fin n) ℝ) :
    Matrix (Fin n) (Fin n) ℝ :=
  A⁻¹ * B

/-- Source line 53, `CayleyMap.forward`:
`torch.linalg.solve(self.Id + X, self.Id - X)`, the solution `Y` of
`(I + X) · Y = I - X`, i.e. `(I + X)⁻¹ (I - X)`. -/
noncomputable def CayleyMap.forward {n : ℕ} (X : Matrix (Fin n) (Fin n) ℝ) :
    Matrix (Fin n) (Fin n) ℝ :=
  linalgSolve (1 + X) (1 - X)

/-- The mapping the spec describes for `CayleyMap.forward` (and which the
comment above source line 53 states): `(I + X)(I - X)⁻¹`, i.e. the solution
`Y` of the linear system `(I - X) · Y = (I + X)`. -/
noncomputable def cayleyClaimed {n : ℕ} (X : Matrix (Fin n) (Fin n) ℝ) :
    Matrix (Fin n) (Fin n) ℝ :=
  linalgSolve (1 - X) (1 + X)

/-- Source line 24, `LearnableOrthogonalSimilarityTransform.forward`:
`self.C @ B @ self.C.transpose(-1, -2)`. -/
def LearnableOrthogonalSimilarityTransform.forward {n : ℕ}
    (C B : Matrix (Fin n) (Fin n) ℝ) : Matrix (Fin n) (Fin n) ℝ :=
  C * B * Cᵀ

/-- The value of `ortho_sim_net.C` after the two
`register_parametrization` calls (source lines 125-126): parametrizations
are applied in registration order, `Skew` first and then `CayleyMap`, to the
underlying unconstrained parameter tensor `W`.  Whatever parameter value `W`
the optimizer reaches, the exposed `C` (and hence the stored `C_star`,
line 147) has this form. -/
noncomputable def parametrizedC {n : ℕ} (W : Matrix (Fin n) (Fin n) ℝ) :
    Matrix (Fin n) (Fin n) ℝ :=
  CayleyMap.forward (Skew.forward W)

/-- Frobenius norm, `torch.norm(M, p="fro")`. -/
noncomputable def frobNorm {m n : ℕ} (M : Matrix (Fin m) (Fin n) ℝ) : ℝ :=
  Real.sqrt (∑ i, ∑ j, M i j ^ 2)

/-- Source lines 177-179, the `"angular"` branch of `score`:
`arccos( trace(A @ C @ B.T @ C.T) / (norm(A) * norm(B)) )`. -/
noncomputable def angularScore {n : ℕ} (C A B : Matrix (Fin n) (Fin n) ℝ) : ℝ :=
  Real.arccos (Matrix.trace (A * C * Bᵀ * Cᵀ) / (frobNorm A * frobNorm B))

/-- Source line 181, the other branch of `score`:
`norm(A - C @ B @ C.T, p="fro")`. -/
noncomputable def euclideanScore {n : ℕ} (C A B : Matrix (Fin n) (Fin n) ℝ) : ℝ :=
  frobNorm (A - C * B * Cᵀ)

/-- A stored fitted matrix `C_star` (always square, of recorded size). -/
structure FittedC where
  n : ℕ
  M : Matrix (Fin n) (Fin n) ℝ

/-- The state of a `SimilarityTransformDist` object: the four constructor
fields (source lines 80-83) and the stored `C_star` (line 84, `None` until a
`fit` completes). -/
structure SimilarityTransformDist where
  iters : ℕ
  score_method : String
  lr : ℝ
  device : String
  C_star : Option FittedC

/-- The constructor defaults of `SimilarityTransformDist.__init__`
(source lines 59-63): `iters = 200`, `score_method = "angular"`,
`lr = 0.01`, `device = "cpu"`, and `C_star = None` (line 84). -/
noncomputable def SimilarityTransformDist.initDefault : SimilarityTransformDist :=
  { iters := 200, score_method := "angular", lr := 1 / 100, device := "cpu",
    C_star := none }

/-- Default of the `iters` parameter in the signature of `fit`
(source line 89): `None`. -/
def SimilarityTransformDist.fitItersDefault : Option ℕ := none

/-- Default of the `lr` parameter in the signature of `fit`
(source line 90): the literal float `0.01` - not `None`. -/
noncomputable def SimilarityTransformDist.fitLrDefault : Option ℝ := some (1 / 100)

/-- Source line 120: `iters = self.iters if iters is None else iters`. -/
def fitItersUsed (self_iters : ℕ) (iters : Option ℕ) : ℕ :=
  iters.getD self_iters

/-- Source line 119: `lr = self.lr if lr is None else lr`. -/
def fitLrUsed (self_lr : ℝ) (lr : Option ℝ) : ℝ :=
  lr.getD self_lr

/-- Source lines 86-147, `SimilarityTransformDist.fit`.  The three shape
asserts (lines 111-113) run first; then line 115 evaluates
`isinstance(A, np.array)`, which raises `TypeError` unconditionally because
`np.array` is a function, not a type (`np.ndarray` was evidently intended).
Every later line of `fit` (device transfer, lr/iters resolution, the
parametrized optimizer loop, the `C_star` assignment) is unreachable. -/
def SimilarityTransformDist.fit (self : SimilarityTransformDist) (A B : PyArr)
    (iters : Option ℕ) (lr : Option ℝ) (verbose : Bool) :
    Except PyErr SimilarityTransformDist :=
  if A.rows ≠ A.cols then .error .shapeAssert
  else if B.rows ≠ B.cols then .error .shapeAssert
  else if A.rows ≠ B.cols then .error .shapeAssert
  else .error .typeError

/-- Source lines 149-183, `SimilarityTransformDist.score`.
Order of effects, exactly as in the source: the `C_star is not None` assert
(line 167), the two shape asserts against `C_star.shape` (lines 168-169),
the `score_method` fallback to `self.score_method` (line 170), the
unconditional `torch.from_numpy` coercions (lines 172-173, `TypeError`
unless the argument is an ndarray), then the string dispatch on
`score_method` (lines 176-181): the `"angular"` formula if the method
equals `"angular"`, the euclidean formula otherwise. -/
noncomputable def SimilarityTransformDist.score (self : SimilarityTransformDist)
    (A B : PyArr) (score_method : Option String) : Except PyErr ℝ :=
  match self.C_star with
  | none => .error .uninitAssert
  | some C =>
    if A.shape ≠ (C.n, C.n) then .error .shapeAssert
    else if B.shape ≠ (C.n, C.n) then .error .shapeAssert
    else
      let m := score_method.getD self.score_method
      match A.kind with
      | .tensor => .error .typeError
      | .ndarray =>
        match B.kind with
        | .tensor => .error .typeError
        | .ndarray =>
          if m = "angular" then
            .ok (angularScore C.M (A.toMat C.n) (B.toMat C.n))
          else
            .ok (euclideanScore C.M (A.toMat C.n) (B.toMat C.n))

/-- Source lines 185-218, `SimilarityTransformDist.fit_score`: resolves
`score_method` against `self.score_method` (line 214), runs
`self.fit(A, B, iters, lr)` (line 215, `verbose` left at its default
`False`), then returns `self.score(A, B, score_method)` (lines 216-218);
an exception in `fit` propagates. -/
noncomputable def SimilarityTransformDist.fit_score (self : SimilarityTransformDist)
    (A B : PyArr) (iters : Option ℕ) (lr : Option ℝ) (score_method : Option String) :
    Except PyErr ℝ :=
  let m := score_method.getD self.score_method
  match self.fit A B iters lr false with
  | .error e => .error e
  | .ok selfFitted => selfFitted.score A B (some m)

/-- Sample 1×1 ndarray argument used by witnesses. -/
noncomputable def arr1 : PyArr := ⟨.ndarray, 1, 1, fun _ _ => 2⟩

/-- Sample 1×1 torch-tensor argument used by witnesses. -/
noncomputable def arrTensor1 : PyArr := ⟨.tensor, 1, 1, fun _ _ => 2⟩

/-- Sample 3×3 ndarray argument used by witnesses. -/
noncomputable def arr3 : PyArr := ⟨.ndarray, 3, 3, fun _ _ => 0⟩

/-- Sample 4×4 ndarray argument used by witnesses. -/
noncomputable def arr4 : PyArr := ⟨.ndarray, 4, 4, fun _ _ => 0⟩

/-- Every call to `fit` returns an error: if a shape assert fails it is an
`AssertionError`, otherwise line 115 raises `TypeError`. -/
lemma fit_isError (self : SimilarityTransformDist) (A B : PyArr)
    (iters : Option ℕ) (lr : Option ℝ) (verbose : Bool) :
    ∃ e, self.fit A B iters lr verbose = .error e := by
  unfold SimilarityTransformDist.fit
  split_ifs <;> exact ⟨_, rfl⟩

/-- Over `ℝ`, `I + X` is invertible whenever `X` is antisymmetric:
if `(I + X) v = 0` then `v ⬝ᵥ v = -(v ⬝ᵥ X v) = 0` by antisymmetry,
forcing `v = 0`. -/
lemma isUnit_one_add_of_skew {n : ℕ} (X : Matrix (Fin n) (Fin n) ℝ)
    (hX : Xᵀ = -X) : IsUnit (1 + X).det := by
  rw [isUnit_iff_ne_zero]
  intro hdet
  obtain ⟨v, hv, hmul⟩ := Matrix.exists_mulVec_eq_zero_iff.mpr hdet
  have h1 : v + X *ᵥ v = 0 := by
    simpa [Matrix.add_mulVec, Matrix.one_mulVec] using hmul
  have hXv : X *ᵥ v = -v := by
    rwa [add_comm, add_eq_zero_iff_eq_neg] at h1
  have hskewdot : v ⬝ᵥ (X *ᵥ v) = -(v ⬝ᵥ (X *ᵥ v)) := by
    calc v ⬝ᵥ (X *ᵥ v) = (v ᵥ* X) ⬝ᵥ v := Matrix.dotProduct_mulVec v X v
      _ = (Xᵀ *ᵥ v) ⬝ᵥ v := by rw [Matrix.mulVec_transpose]
      _ = ((-X) *ᵥ v) ⬝ᵥ v := by rw [hX]
      _ = -((X *ᵥ v) ⬝ᵥ v) := by rw [Matrix.neg_mulVec, Matrix.neg_dotProduct]
      _ = -(v ⬝ᵥ (X *ᵥ v)) := by rw [Matrix.dotProduct_comm]
  have hdot0 : v ⬝ᵥ (X *ᵥ v) = 0 := by linarith
  have hvv : v ⬝ᵥ v = 0 := by
    have h2 : v ⬝ᵥ (X *ᵥ v) = -(v ⬝ᵥ v) := by rw [hXv, Matrix.dotProduct_neg]
    linarith
  exact hv (Matrix.dotProduct_self_eq_zero.mp hvv)

/-- `I - X` is invertible for antisymmetric `X` (apply the previous lemma
to `-X`). -/
lemma isUnit_one_sub_of_skew {n : ℕ} (X : Matrix (Fin n) (Fin n) ℝ)
    (hX : Xᵀ = -X) : IsUnit (1 - X).det := by
  have hneg : (-X)ᵀ = -(-X) := by rw [Matrix.transpose_neg, hX]
  have := isUnit_one_add_of_skew (-X) hneg
  rwa [← sub_eq_add_neg] at this

/-- The Cayley map of the code sends every antisymmetric matrix to an orthogonal
matrix: `(I + X)⁻¹ (I - X)` times its transpose is the identity. -/
lemma cayley_mul_transpose_self {n : ℕ} (X : Matrix (Fin n) (Fin n) ℝ)
    (hX : Xᵀ = -X) :
    CayleyMap.forward X * (CayleyMap.forward X)ᵀ = 1 := by
  have hu1 : IsUnit (1 + X).det := isUnit_one_add_of_skew X hX
  have hu2 : IsUnit (1 - X).det := isUnit_one_sub_of_skew X hX
  have htrans : ((1 + X)⁻¹ * (1 - X))ᵀ = (1 + X) * (1 - X)⁻¹ := by
    rw [Matrix.transpose_mul, Matrix.transpose_nonsing_inv, Matrix.transpose_sub,
      Matrix.transpose_add, Matrix.transpose_one, hX, sub_neg_eq_add,
      ← sub_eq_add_neg]
  have hcomm : (1 - X) * (1 + X) = (1 + X) * (1 - X) := by noncomm_ring
  show (1 + X)⁻¹ * (1 - X) * ((1 + X)⁻¹ * (1 - X))ᵀ = 1
  rw [htrans]
  calc (1 + X)⁻¹ * (1 - X) * ((1 + X) * (1 - X)⁻¹)
      = (1 + X)⁻¹ * ((1 - X) * (1 + X) * (1 - X)⁻¹) := by
        rw [mul_assoc, ← mul_assoc (1 - X)]
    _ = (1 + X)⁻¹ * ((1 + X) * (1 - X) * (1 - X)⁻¹) := by rw [hcomm]
    _ = (1 + X)⁻¹ * ((1 + X) * ((1 - X) * (1 - X)⁻¹)) := by rw [mul_assoc]
    _ = (1 + X)⁻¹ * (1 + X) := by rw [Matrix.mul_nonsing_inv _ hu2, mul_one]
    _ = 1 := Matrix.nonsing_inv_mul _ hu1

/-- The output of `Skew.forward` is antisymmetric. -/
lemma skewForward_transpose {n : ℕ} (W : Matrix (Fin n) (Fin n) ℝ) :
    (Skew.forward W)ᵀ = -(Skew.forward W) := by
  unfold Skew.forward
  rw [Matrix.transpose_sub, Matrix.transpose_transpose, neg_sub]

/-- Scaling a matrix by a nonnegative scalar scales its Frobenius norm. -/
lemma frobNorm_smul {m n : ℕ} (s : ℝ) (hs : 0 ≤ s) (M : Matrix (Fin m) (Fin n) ℝ) :
    frobNorm (s • M) = s * frobNorm M := by
  unfold frobNorm
  have h : (∑ i, ∑ j, (s • M) i j ^ 2) = s ^ 2 * ∑ i, ∑ j, M i j ^ 2 := by
    rw [Finset.mul_sum]
    refine Finset.sum_congr rfl fun i _ => ?_
    rw [Finset.mul_sum]
    refine Finset.sum_congr rfl fun j _ => ?_
    rw [Matrix.smul_apply, smul_eq_mul, mul_pow]
  rw [h, Real.sqrt_mul (sq_nonneg s), Real.sqrt_sq hs]

/-- The angular score is invariant under scaling both data matrices by the
same positive scalar: numerator and denominator both pick up `s ^ 2`. -/
lemma angularScore_smul {n : ℕ} (s : ℝ) (hs : 0 < s)
    (C A B : Matrix (Fin n) (Fin n) ℝ) :
    angularScore C (s • A) (s • B) = angularScore C A B := by
  unfold angularScore
  have htr : Matrix.trace ((s • A) * C * (s • B)ᵀ * Cᵀ)
      = s ^ 2 * Matrix.trace (A * C * Bᵀ * Cᵀ) := by
    simp only [Matrix.transpose_smul, Matrix.smul_mul, Matrix.mul_smul,
      Matrix.trace_smul, smul_smul, smul_eq_mul]
    ring
  rw [htr, frobNorm_smul s hs.le, frobNorm_smul s hs.le]
  congr 1
  rw [show s * frobNorm A * (s * frobNorm B) = s ^ 2 * (frobNorm A * frobNorm B) by ring]
  exact mul_div_mul_left _ _ (pow_ne_zero 2 hs.ne')

/-- The euclidean score is homogeneous of degree one in a simultaneous
nonnegative scaling of the data matrices. -/
lemma euclideanScore_smul {n : ℕ} (s : ℝ) (hs : 0 ≤ s)
    (C A B : Matrix (Fin n) (Fin n) ℝ) :
    euclideanScore C (s • A) (s • B) = s * euclideanScore C A B := by
  unfold euclideanScore
  rw [Matrix.mul_smul, Matrix.smul_mul, ← smul_sub, frobNorm_smul s hs]

/-- C1: evaluating the code at the skew-symmetric input X = [[0,1],[-1,0]].
`CayleyMap.forward` runs `torch.linalg.solve(Id + X, Id - X)`, which solves
`(I+X)·Y = I-X` and hence returns `(I+X)⁻¹(I-X) = [[0,-1],[1,0]]`; the
spec (and the comment in the source) say it returns `(I+X)(I-X)⁻¹`, the
solution of `(I-X)·Y = I+X`, which at this input is `[[0,1],[-1,0]]`.
The two results differ, so the code contradicts its own comment. -/
theorem C1_cayley_solve_swapped :
    CayleyMap.forward !![(0 : ℝ), 1; -1, 0] = !![0, -1; 1, 0] ∧
    cayleyClaimed !![(0 : ℝ), 1; -1, 0] = !![0, 1; -1, 0] ∧
    CayleyMap.forward !![(0 : ℝ), 1; -1, 0] ≠ cayleyClaimed !![(0 : ℝ), 1; -1, 0] := by
  have hadd : (1 + !![(0 : ℝ), 1; -1, 0]) = !![1, 1; -1, 1] := by
    rw [Matrix.one_fin_two]
    ext i j
    fin_cases i <;> fin_cases j <;> simp
  have hsub : (1 - !![(0 : ℝ), 1; -1, 0]) = !![1, -1; 1, 1] := by
    rw [Matrix.one_fin_two]
    ext i j
    fin_cases i <;> fin_cases j <;> simp
  have hAddInv : (1 + !![(0 : ℝ), 1; -1, 0])⁻¹ = !![1 / 2, -(1 / 2); 1 / 2, 1 / 2] := by
    rw [hadd]
    apply Matrix.inv_eq_right_inv
    ext i j
    fin_cases i <;> fin_cases j <;>
      simp [Matrix.mul_apply, Fin.sum_univ_two, Matrix.one_apply] <;> norm_num
  have hSubInv : (1 - !![(0 : ℝ), 1; -1, 0])⁻¹ = !![1 / 2, 1 / 2; -(1 / 2), 1 / 2] := by
    rw [hsub]
    apply Matrix.inv_eq_right_inv
    ext i j
    fin_cases i <;> fin_cases j <;>
      simp [Matrix.mul_apply, Fin.sum_univ_two, Matrix.one_apply] <;> norm_num
  have h1 : CayleyMap.forward !![(0 : ℝ), 1; -1, 0] = !![0, -1; 1, 0] := by
    unfold CayleyMap.forward linalgSolve
    rw [hAddInv, hsub]
    ext i j
    fin_cases i <;> fin_cases j <;>
      simp [Matrix.mul_apply, Fin.sum_univ_two] <;> norm_num
  have h2 : cayleyClaimed !![(0 : ℝ), 1; -1, 0] = !![0, 1; -1, 0] := by
    unfold cayleyClaimed linalgSolve
    rw [hSubInv, hadd]
    ext i j
    fin_cases i <;> fin_cases j <;>
      simp [Matrix.mul_apply, Fin.sum_univ_two] <;> norm_num
  refine ⟨h1, h2, ?_⟩
  rw [h1, h2]
  intro hEq
  have h01 := congrArg (fun M : Matrix (Fin 2) (Fin 2) ℝ => M 0 1) hEq
  norm_num at h01

/-- C2: the Skew ∘ Cayley reparameterization is structurally orthogonal -
for every value `W` of the unconstrained parameter (hence after any `fit`
iteration count and whatever the optimization outcome, since the stored
`C_star` is the parametrized `C` at the final `W`), the exposed matrix
`C = CayleyMap.forward (Skew.forward W)` satisfies `C·Cᵀ = I` exactly,
so `‖C·Cᵀ - I‖_F = 0`, which is below any positive tolerance ε. -/
theorem C2_fitted_C_orthogonal :
    ∀ (n : ℕ) (W : Matrix (Fin n) (Fin n) ℝ),
      parametrizedC W * (parametrizedC W)ᵀ = 1 ∧
      frobNorm (parametrizedC W * (parametrizedC W)ᵀ - 1) = 0 := by
  intro n W
  have h : parametrizedC W * (parametrizedC W)ᵀ = 1 :=
    cayley_mul_transpose_self (Skew.forward W) (skewForward_transpose W)
  refine ⟨h, ?_⟩
  rw [h, sub_self]
  simp [frobNorm]

/-- C3: the code does not accept numpy arrays (nor tensors): for every
well-shaped input pair, `fit` raises `TypeError` at its coercion step
because line 115 tests `isinstance(A, np.array)` and `np.array` is a
function, not a type; and `score` raises `TypeError` whenever an argument
is a torch tensor, because lines 172-173 call `torch.from_numpy`
unconditionally.  So `fit` never proceeds past input coercion. -/
theorem C3_input_coercion_type_error :
    (∀ (self : SimilarityTransformDist) (A B : PyArr)
       (iters : Option ℕ) (lr : Option ℝ) (verbose : Bool),
       A.rows = A.cols → B.rows = B.cols → A.rows = B.cols →
       self.fit A B iters lr verbose = .error .typeError) ∧
    (∀ (self : SimilarityTransformDist) (n : ℕ) (C : Matrix (Fin n) (Fin n) ℝ)
       (A B : PyArr) (m : Option String),
       self.C_star = some ⟨n, C⟩ → A.shape = (n, n) → B.shape = (n, n) →
       A.kind = .tensor →
       self.score A B m = .error .typeError) := by
  constructor
  · intro self A B iters lr verbose h1 h2 h3
    unfold SimilarityTransformDist.fit
    rw [if_neg (by omega), if_neg (by omega), if_neg (by omega)]
  · intro self n C A B m hC hA hB hk
    simp [SimilarityTransformDist.score, hC, hA, hB, hk]

/-- C3 witness: the well-shaped 1×1 ndarray pair makes `fit` raise
`TypeError`, and a 1×1 tensor argument makes `score` raise `TypeError`. -/
theorem C3_input_coercion_type_error_witness :
    (arr1.rows = arr1.cols ∧ arr1.rows = arr1.cols ∧ arr1.rows = arr1.cols ∧
      SimilarityTransformDist.fit ⟨200, "angular", 0, "cpu", none⟩ arr1 arr1 none none false
        = .error .typeError) ∧
    ((⟨200, "angular", 0, "cpu", some ⟨1, (1 : Matrix (Fin 1) (Fin 1) ℝ)⟩⟩ :
        SimilarityTransformDist).C_star = some ⟨1, 1⟩ ∧
      arrTensor1.shape = (1, 1) ∧ arrTensor1.kind = .tensor ∧
      SimilarityTransformDist.score ⟨200, "angular", 0, "cpu", some ⟨1, 1⟩⟩
          arrTensor1 arrTensor1 none = .error .typeError) :=
  ⟨⟨rfl, rfl, rfl,
      C3_input_coercion_type_error.1 ⟨200, "angular", 0, "cpu", none⟩ arr1 arr1
        none none false rfl rfl rfl⟩,
    ⟨rfl, rfl, rfl,
      C3_input_coercion_type_error.2 ⟨200, "angular", 0, "cpu", some ⟨1, 1⟩⟩ 1 1
        arrTensor1 arrTensor1 none rfl rfl rfl rfl⟩⟩

/-- C4 counterexample: with instance default `self.lr = 0.5`, an omitted
`lr` argument resolves through the signature default (line 90, `lr = 0.01`)
and line 119 to the literal `0.01`, not to `self.lr = 0.5`. -/
theorem C4_omitted_lr_ignores_instance_default :
    fitLrUsed (1 / 2) SimilarityTransformDist.fitLrDefault = 1 / 100 ∧
    fitLrUsed (1 / 2) SimilarityTransformDist.fitLrDefault ≠ 1 / 2 := by
  refine ⟨rfl, ?_⟩
  have h : fitLrUsed (1 / 2) SimilarityTransformDist.fitLrDefault = 1 / 100 := rfl
  rw [h]
  norm_num

/-- C4 amended: an omitted iteration count falls back to the instance
default `self.iters` (its signature default is `None`), but an omitted
learning rate resolves to the literal signature default `0.01` regardless
of the instance `self.lr`; `lr` falls back to `self.lr` only when `None`
is passed explicitly. -/
theorem C4_fit_defaults_resolution :
    ∀ (self_iters : ℕ) (self_lr : ℝ),
      fitItersUsed self_iters SimilarityTransformDist.fitItersDefault = self_iters ∧
      fitLrUsed self_lr SimilarityTransformDist.fitLrDefault = 1 / 100 ∧
      fitLrUsed self_lr none = self_lr :=
  fun _ _ => ⟨rfl, rfl, rfl⟩

/-- C5: with a fitted `C` of matching shape stored, and ndarray inputs of
that shape, `score` returns `arccos( trace(A·C·Bᵀ·Cᵀ) / (‖A‖_F·‖B‖_F) )`
under method `"angular"` and `‖A - C·B·Cᵀ‖_F` (which is nonnegative)
under method `"euclidean"`. -/
theorem C5_score_formulas :
    ∀ (it : ℕ) (sm : String) (lr : ℝ) (dev : String) (n : ℕ)
      (C : Matrix (Fin n) (Fin n) ℝ) (A B : PyArr),
      A.kind = .ndarray → B.kind = .ndarray →
      A.shape = (n, n) → B.shape = (n, n) →
      SimilarityTransformDist.score ⟨it, sm, lr, dev, some ⟨n, C⟩⟩ A B (some "angular")
          = .ok (angularScore C (A.toMat n) (B.toMat n)) ∧
      SimilarityTransformDist.score ⟨it, sm, lr, dev, some ⟨n, C⟩⟩ A B (some "euclidean")
          = .ok (euclideanScore C (A.toMat n) (B.toMat n)) ∧
      0 ≤ euclideanScore C (A.toMat n) (B.toMat n) := by
  intro it sm lr dev n C A B hAk hBk hAs hBs
  refine ⟨?_, ?_, Real.sqrt_nonneg _⟩ <;>
    simp [SimilarityTransformDist.score, hAs, hBs, hAk, hBk]

/-- C5 witness: the formulas hold at a concrete fitted state and concrete
1×1 ndarray inputs. -/
theorem C5_score_formulas_witness :
    arr1.kind = .ndarray ∧ arr1.shape = (1, 1) ∧
    (SimilarityTransformDist.score ⟨200, "angular", 0, "cpu", some ⟨1, 1⟩⟩ arr1 arr1
        (some "angular") = .ok (angularScore 1 (arr1.toMat 1) (arr1.toMat 1)) ∧
     SimilarityTransformDist.score ⟨200, "angular", 0, "cpu", some ⟨1, 1⟩⟩ arr1 arr1
        (some "euclidean") = .ok (euclideanScore 1 (arr1.toMat 1) (arr1.toMat 1)) ∧
     0 ≤ euclideanScore (1 : Matrix (Fin 1) (Fin 1) ℝ) (arr1.toMat 1) (arr1.toMat 1)) :=
  ⟨rfl, rfl, C5_score_formulas 200 "angular" 0 "cpu" 1 1 arr1 arr1 rfl rfl rfl rfl⟩

/-- C6: mismatched shapes hit the leading asserts.  In `fit` (lines
111-113), if `A` and `B` are not both square of equal size the result is
the shape `AssertionError` - not the `TypeError` of the later coercion
step, so the failure is raised before any tensor coercion or optimizer
step.  In `score` (lines 168-169), an input whose shape differs from the
shape of the fitted `C_star` likewise yields the shape `AssertionError` before
any computation. -/
theorem C6_shape_mismatch_asserts :
    (∀ (self : SimilarityTransformDist) (A B : PyArr)
       (iters : Option ℕ) (lr : Option ℝ) (verbose : Bool),
       ¬(A.rows = A.cols ∧ B.rows = B.cols ∧ A.rows = B.rows) →
       self.fit A B iters lr verbose = .error .shapeAssert) ∧
    (∀ (self : SimilarityTransformDist) (n : ℕ) (C : Matrix (Fin n) (Fin n) ℝ)
       (A B : PyArr) (m : Option String),
       self.C_star = some ⟨n, C⟩ →
       ¬(A.shape = (n, n) ∧ B.shape = (n, n)) →
       self.score A B m = .error .shapeAssert) := by
  constructor
  · intro self A B iters lr verbose h
    unfold SimilarityTransformDist.fit
    split_ifs with h1 h2 h3
    · rfl
    · rfl
    · rfl
    · push_neg at h1 h2 h3
      exact absurd ⟨h1, h2, h3.trans h2.symm⟩ h
  · intro self n C A B m hC h
    rcases not_and_or.mp h with h1 | h2
    · simp [SimilarityTransformDist.score, hC, h1]
    · by_cases h1 : A.shape = (n, n)
      · simp [SimilarityTransformDist.score, hC, h1, h2]
      · simp [SimilarityTransformDist.score, hC, h1]

/-- C6 witness: a 3×3 / 4×4 pair makes `fit` raise the shape assert, and a
3×3 input against a fitted 1×1 `C_star` makes `score` raise it. -/
theorem C6_shape_mismatch_asserts_witness :
    (¬(arr3.rows = arr3.cols ∧ arr4.rows = arr4.cols ∧ arr3.rows = arr4.rows) ∧
      SimilarityTransformDist.fit ⟨200, "angular", 0, "cpu", none⟩ arr3 arr4 none none false
        = .error .shapeAssert) ∧
    ((⟨200, "angular", 0, "cpu", some ⟨1, (1 : Matrix (Fin 1) (Fin 1) ℝ)⟩⟩ :
        SimilarityTransformDist).C_star = some ⟨1, 1⟩ ∧
      ¬(arr3.shape = (1, 1) ∧ arr3.shape = (1, 1)) ∧
      SimilarityTransformDist.score ⟨200, "angular", 0, "cpu", some ⟨1, 1⟩⟩ arr3 arr3 none
        = .error .shapeAssert) :=
  ⟨⟨by decide,
      C6_shape_mismatch_asserts.1 ⟨200, "angular", 0, "cpu", none⟩ arr3 arr4
        none none false (by decide)⟩,
    ⟨rfl, by decide,
      C6_shape_mismatch_asserts.2 ⟨200, "angular", 0, "cpu", some ⟨1, 1⟩⟩ 1 1
        arr3 arr3 none rfl (by decide)⟩⟩

/-- C7: while no fitted matrix is stored (`C_star = None`, the state set by
the constructor), `score` fails with the uninitialized-state
`AssertionError` of line 167, for every pair of inputs and every method. -/
theorem C7_score_before_fit_uninitialized :
    ∀ (it : ℕ) (sm : String) (lr : ℝ) (dev : String) (A B : PyArr) (m : Option String),
      SimilarityTransformDist.score ⟨it, sm, lr, dev, none⟩ A B m
        = .error .uninitAssert :=
  fun _ _ _ _ _ _ _ => rfl

/-- C8: `fit_score(A, B, iters, lr, m)` is exactly `fit(A, B, iters, lr)`
followed by `score(A, B, m)` on the resulting state (sequencing in the
exception monad): the pre-resolution of the method in `fit_score` (line
214) resolves against the same `self.score_method` that `score` itself
would fall back to, and an exception from `fit` propagates identically. -/
theorem C8_fit_score_is_fit_then_score :
    ∀ (self : SimilarityTransformDist) (A B : PyArr)
      (iters : Option ℕ) (lr : Option ℝ) (m : Option String),
      self.fit_score A B iters lr m =
        (self.fit A B iters lr false).bind fun selfFitted => selfFitted.score A B m := by
  intro self A B iters lr m
  obtain ⟨e, he⟩ := fit_isError self A B iters lr false
  unfold SimilarityTransformDist.fit_score
  rw [he]
  rfl

/-- C9: for every positive scalar `s`, the angular score is invariant under
replacing `(A, B)` by `(s·A, s·B)`, and the euclidean score scales by `s`. -/
theorem C9_score_scaling :
    ∀ (n : ℕ) (s : ℝ) (C A B : Matrix (Fin n) (Fin n) ℝ), 0 < s →
      angularScore C (s • A) (s • B) = angularScore C A B ∧
      euclideanScore C (s • A) (s • B) = s * euclideanScore C A B :=
  fun _ s C A B hs => ⟨angularScore_smul s hs C A B, euclideanScore_smul s hs.le C A B⟩

/-- C9 witness: instantiated at `s = 2` and concrete 1×1 matrices. -/
theorem C9_score_scaling_witness :
    (0 : ℝ) < 2 ∧
    (angularScore (1 : Matrix (Fin 1) (Fin 1) ℝ) ((2 : ℝ) • 1) ((2 : ℝ) • 1)
        = angularScore (1 : Matrix (Fin 1) (Fin 1) ℝ) 1 1 ∧
      euclideanScore (1 : Matrix (Fin 1) (Fin 1) ℝ) ((2 : ℝ) • 1) ((2 : ℝ) • 1)
        = 2 * euclideanScore (1 : Matrix (Fin 1) (Fin 1) ℝ) 1 1) :=
  ⟨by norm_num, C9_score_scaling 1 2 1 1 1 (by norm_num)⟩

/-- C10: `score` dispatches on string equality with `"angular"` only
(line 176); every other method string - including misspellings and
arbitrary values outside the documented enum - falls into the `else`
branch and returns the euclidean metric, with no error raised. -/
theorem C10_non_angular_method_is_euclidean :
    ∀ (it : ℕ) (sm : String) (lr : ℝ) (dev : String) (n : ℕ)
      (C : Matrix (Fin n) (Fin n) ℝ) (A B : PyArr) (m : String),
      m ≠ "angular" →
      A.kind = .ndarray → B.kind = .ndarray →
      A.shape = (n, n) → B.shape = (n, n) →
      SimilarityTransformDist.score ⟨it, sm, lr, dev, some ⟨n, C⟩⟩ A B (some m)
        = .ok (euclideanScore C (A.toMat n) (B.toMat n)) := by
  intro it sm lr dev n C A B m hm hAk hBk hAs hBs
  simp [SimilarityTransformDist.score, hAs, hBs, hAk, hBk, hm]

/-- C10 witness: the misspelled method string "euclidaen" silently yields
the euclidean metric at a concrete fitted state and inputs. -/
theorem C10_non_angular_method_is_euclidean_witness :
    ("euclidaen" : String) ≠ "angular" ∧
    SimilarityTransformDist.score ⟨200, "angular", 0, "cpu", some ⟨1, 1⟩⟩ arr1 arr1
        (some "euclidaen")
      = .ok (euclideanScore (1 : Matrix (Fin 1) (Fin 1) ℝ) (arr1.toMat 1) (arr1.toMat 1)) :=
  ⟨by decide,
    C10_non_angular_method_is_euclidean 200 "angular" 0 "cpu" 1 1 arr1 arr1
      "euclidaen" (by decide) rfl rfl rfl rfl⟩

end SimDist

